import Mathlib

/-!
Verification development for the Roleplay_Data_Pipeline repository
(single source file `main.py`).

The development shallowly embeds, from the source:
  * the text normalization `clean_response` (main.py lines 225-240),
  * the document data model (`conversation_data`, main.py lines 155-168)
    and `add_message_pair` (lines 200-212),
  * the `BackupManager` persistence primitive `save_data` together with
    `_create_backup` and `_cleanup_old_backups` (lines 29-87),
  * the Ledger-level `save_conversation` (lines 214-223) and the
    user-side generation `get_user_message` (lines 242-302),
  * the process exit-code behaviour of `__init__` / `run_generation` /
    `main` (lines 120-138, 328-332, 392-415).

The filesystem is modelled as an explicit state (target file, temporary
file, backup directory entries, a second-resolution clock); each fallible
OS/serialization call site carries an injectable failure flag, and Python
exceptions are modelled with `Except` for the protected suite of a
`try`, with the handler applied where the source catches.
-/

/-! ## Python string primitives

Python `str.strip`, `str.lower`, `str.startswith`, `str.endswith` and
character slicing, modelled over the character list of a `String`.
All inputs of interest are ASCII, where these agree with Python. -/

/-- Python whitespace for `str.strip`: space, tab, newline, carriage
return, vertical tab, form feed. -/
def isPySpace (ch : Char) : Bool :=
  ch == ' ' || ch == '\t' || ch == '\n' || ch == '\r' || ch == '\x0b' || ch == '\x0c'

/-- Python `s.strip()`: drop whitespace from both ends. -/
def pyStrip (s : String) : String :=
  String.mk (((s.toList.dropWhile isPySpace).reverse.dropWhile isPySpace).reverse)

/-- Python `s.lower()` (ASCII). -/
def pyLower (s : String) : String :=
  String.mk (s.toList.map Char.toLower)

/-- Python `s.startswith(p)`. -/
def pyStartsWith (s p : String) : Bool :=
  p.toList.isPrefixOf s.toList

/-- Python `s.endswith(p)`. -/
def pyEndsWith (s p : String) : Bool :=
  p.toList.isSuffixOf s.toList

/-- Python `s[n:]` (character slicing). -/
def pyDropChars (s : String) (n : Nat) : String :=
  String.mk (s.toList.drop n)

/-! ## clean_response (main.py 225-240) -/

/-- One pass of the source's label-stripping loop: for each label in
order, if the lowercased current text starts with it, slice it off and
strip (`response = response[len(prefix):].strip()`). -/
def stripLabels (labels : List String) (r : String) : String :=
  labels.foldl
    (fun acc p => if pyStartsWith (pyLower acc) p then pyStrip (pyDropChars acc p.toList.length) else acc)
    r

/-- The hard-coded `user_prefixes` list of main.py line 229.  Note these
are literal strings containing the word `user`; the user persona's
configured name is not consulted. -/
def userLabels : List String :=
  ["user:", "*user:", "*as user:", "<user>:", "[user]:", "(as user)"]

/-- The `character_prefixes` of main.py lines 234-235, built from the
configured character name: `name.lower() + ":"` and its decorated
variants (the colon sits inside the brackets, as in the source). -/
def charLabels (characterName : String) : List String :=
  let cn := pyLower characterName ++ ":"
  [cn, "*as " ++ cn, "<" ++ cn ++ ">", "[" ++ cn ++ "]"]

/-- Model of `clean_response` (main.py 225-240): strip, then the user-label loop,
then the character-label loop. -/
def clean_response (characterName : String) (response : String) : String :=
  stripLabels (charLabels characterName) (stripLabels userLabels (pyStrip response))

/-! ## Document data model (main.py 155-168, 200-212)

`conversation_data` carries further metadata fields that are constant
strings fixed at construction (creation date, participant display
names, scenario); they are never consulted by the code under
verification and are omitted from the record. -/

/-- One entry of `conversation_pairs` (main.py 203-207): keys `user`,
`character`, `timestamp`. -/
structure MessagePair where
  user : String
  character : String
  timestamp : Nat
deriving DecidableEq, Repr

/-- The mutable part of `conversation_data["metadata"]`. -/
structure Metadata where
  pair_count : Nat
  total_target : Nat
deriving DecidableEq, Repr

/-- The in-memory Document. -/
structure ConvData where
  metadata : Metadata
  conversation_pairs : List MessagePair
deriving DecidableEq, Repr

/-- The document as built in `__init__` (main.py 155-168):
`pair_count = 0`, empty `conversation_pairs`. -/
def initial_data (target : Nat) : ConvData :=
  { metadata := { pair_count := 0, total_target := target }, conversation_pairs := [] }

/-- The pure data mutation performed by `add_message_pair`
(main.py 202-210): build the pair with the current timestamp, append it,
increment `pair_count`. -/
def appendPair (d : ConvData) (u c : String) (ts : Nat) : ConvData :=
  { metadata := { d.metadata with pair_count := d.metadata.pair_count + 1 },
    conversation_pairs := d.conversation_pairs ++ [⟨u, c, ts⟩] }

/-- Serialization (`json.dump`) of the document, modelled as a concrete injective-enough
serialization (the claims only compare serialized states for equality). -/
def serializePair (p : MessagePair) : String :=
  p.user ++ "|" ++ p.character ++ "|" ++ toString p.timestamp

/-- Serialized form of the whole document. -/
def serialize (d : ConvData) : String :=
  toString d.metadata.pair_count ++ "/" ++ toString d.metadata.total_target ++ ":"
    ++ String.intercalate ";" (d.conversation_pairs.map serializePair)

/-! ## Filesystem model for BackupManager (main.py 14-87)

`BackupManager` touches exactly three locations: the target file
`base_filename`, the temporary file `base_filename + ".tmp"`, and the
`backups/` directory.  A file is content plus a last-modified time;
`shutil.copy2` preserves the source's mtime, plain writes stamp the
current clock.  The clock advances on every write, giving the
second-resolution timestamps used in backup names strictly increasing
values.  The backup directory is an unordered set of named entries,
represented as a list. -/

/-- A regular file: content and last-modified time. -/
structure FileEntry where
  content : String
  mtime : Nat
deriving DecidableEq, Repr

/-- One entry of the `backups/` directory. -/
structure BackupFile where
  name : String
  content : String
  mtime : Nat
deriving DecidableEq, Repr

/-- The filesystem state seen by one `BackupManager`. -/
structure FS where
  base : Option FileEntry
  temp : Option FileEntry
  backups : List BackupFile
  clock : Nat
deriving DecidableEq, Repr

/-- Failure injection: one flag per fallible call site of
`save_data` / `_create_backup` / `_cleanup_old_backups`.  A set flag
means that call raises `Exception` when reached. -/
structure Faults where
  dumpFails : Bool
  copyFails : Bool
  removeFails : Bool
  renameFails : Bool
  cleanupFails : Bool
  tmpRemoveFails : Bool
deriving DecidableEq, Repr

/-- The fault-free execution. -/
def noFaults : Faults := ⟨false, false, false, false, false, false⟩

/-- The `os.listdir` filter of `_cleanup_old_backups` (main.py 75-79):
`f.endswith(".bak")`. -/
def isBakFile (b : BackupFile) : Bool := pyEndsWith b.name ".bak"

/-- Sorting key of main.py line 81: ascending `os.path.getmtime`. -/
def bkLE (a b : BackupFile) : Prop := a.mtime ≤ b.mtime

instance : DecidableRel bkLE := fun a b => Nat.decLe a.mtime b.mtime
instance : IsTotal BackupFile bkLE := ⟨fun a b => Nat.le_total a.mtime b.mtime⟩
instance : IsTrans BackupFile bkLE := ⟨fun _ _ _ hab hbc => Nat.le_trans hab hbc⟩

/-- Diagnostic line of main.py 86-87. -/
def cleanup_warn_message : String := "Had a small issue cleaning up old backups"

/-- Diagnostic line of main.py 69-70. -/
def backup_warn_message : String := "Couldn't create backup right now"

/-- Diagnostic line of main.py 47. -/
def oops_message : String := "Oops! Had trouble saving data"

/-- The `.bak` entries of a backup directory, sorted ascending by
last-modified time (main.py 75-81). -/
def sortedBaks (l : List BackupFile) : List BackupFile :=
  List.insertionSort bkLE (l.filter isBakFile)

/-- The entries surviving the pruning loop of main.py 83-85: the loop
deletes `sortedBaks[0]` while more than `max_backups` remain, so the
last `max_backups` of the sorted list (all of it when short) survive. -/
def prunedList (maxB : Nat) (l : List BackupFile) : List BackupFile :=
  (sortedBaks l).drop ((sortedBaks l).length - maxB)

/-- The entries the pruning loop deletes: the first
`len - max_backups` of the sorted list. -/
def deletedList (maxB : Nat) (l : List BackupFile) : List BackupFile :=
  (sortedBaks l).take ((sortedBaks l).length - maxB)

/-- Model of `_cleanup_old_backups` (main.py 72-87): list the `.bak` entries,
sort ascending by mtime, delete from the front while more than
`max_backups` remain; entries not ending in `.bak` are never listed,
hence never deleted.  The whole body sits in a `try`; an injected
failure leaves the directory as-is and prints the warning. -/
def cleanup_old_backups (maxB : Nat) (failCleanup : Bool) (fs : FS) : FS × List String :=
  if failCleanup then (fs, [cleanup_warn_message])
  else
    ({ fs with backups := fs.backups.filter (fun b => !isBakFile b) ++ prunedList maxB fs.backups },
     [])

/-- Fixed base name of the output file (actually
`conversation_<run-timestamp>.json`; the claims never inspect it). -/
def outputBaseName : String := "conversation.json"

/-- Name of the backup created at clock `t`
(main.py 59-63: `<basename>.<timestamp>.bak`). -/
def bak_name_at (t : Nat) : String := outputBaseName ++ "." ++ toString t ++ ".bak"

/-- The backup entry `_create_backup` produces when the save starts at
state `fs` with committed target `e`: the name carries the timestamp
reached after writing the temporary file (`fs.clock + 1`), and `copy2`
preserves the source's content and mtime. -/
def backupOf (fs : FS) (e : FileEntry) : BackupFile :=
  ⟨bak_name_at (fs.clock + 1), e.content, e.mtime⟩

/-- Model of `_create_backup` (main.py 54-70): if the target exists, copy it
(`shutil.copy2`, preserving its mtime) into `backups/` under a
timestamped name, then prune.  `copy2` and the pruning sit in a `try`
whose handler only prints, so no failure escapes this function. -/
def create_backup (maxB : Nat) (f : Faults) (fs : FS) : FS × List String :=
  match fs.base with
  | none => (fs, [])
  | some entry =>
    if f.copyFails then (fs, [backup_warn_message])
    else
      let nb : BackupFile := ⟨bak_name_at fs.clock, entry.content, entry.mtime⟩
      cleanup_old_backups maxB f.cleanupFails
        { fs with backups := fs.backups ++ [nb], clock := fs.clock + 1 }

/-- Outcome of a Python call as seen by its caller: it either returns
normally or raises. -/
inductive SaveOutcome where
  | normal : FS → List String → SaveOutcome
  | raised : FS → List String → SaveOutcome
deriving DecidableEq, Repr

/-- Whether the call returned without raising. -/
def SaveOutcome.isNormal : SaveOutcome → Bool
  | .normal _ _ => true
  | .raised _ _ => false

/-- Filesystem after the call, whichever way it ended. -/
def outFS : SaveOutcome → FS
  | .normal a _ => a
  | .raised a _ => a

/-- Messages printed during the call. -/
def outMsgs : SaveOutcome → List String
  | .normal _ m => m
  | .raised _ m => m

/-- The protected suite of `save_data`'s `try` (main.py 35-45):
write the temporary file, back up an existing target, delete the old
target, rename the temporary file over it.  `.error` carries the state
and output at the raise point.  A failing `json.dump` leaves a
partially written temporary file behind (`open(..., "w")` created it). -/
def save_data_try (c : String) (maxB : Nat) (f : Faults) (fs : FS) :
    Except (FS × List String) (FS × List String) :=
  if f.dumpFails then
    .error ({ fs with temp := some ⟨"<truncated>", fs.clock⟩, clock := fs.clock + 1 }, [])
  else
    let fs1 : FS := { fs with temp := some ⟨c, fs.clock⟩, clock := fs.clock + 1 }
    let bk := if fs1.base.isSome then create_backup maxB f fs1 else (fs1, [])
    let fs2 := bk.1
    match fs2.base with
    | some _ =>
      if f.removeFails then .error (fs2, bk.2)
      else
        let fs3 := { fs2 with base := none }
        if f.renameFails then .error (fs3, bk.2)
        else .ok ({ fs3 with base := fs3.temp, temp := none }, bk.2)
    | none =>
      if f.renameFails then .error (fs2, bk.2)
      else .ok ({ fs2 with base := fs2.temp, temp := none }, bk.2)

/-- The `except` handler of `save_data` (main.py 46-52): print, then
remove the temporary file if it exists; the removal itself is wrapped
in a bare `except: pass`. -/
def exceptCleanup (f : Faults) (fs : FS) : FS :=
  if fs.temp.isSome && !f.tmpRemoveFails then { fs with temp := none } else fs

/-- Model of `save_data` (main.py 29-52): the `try` suite with the catch-all
handler.  Every failure of the suite is caught, so both branches return
normally — the function's Python return type is `None`, carrying no
success signal to the caller. -/
def save_data (c : String) (maxB : Nat) (f : Faults) (fs : FS) : SaveOutcome :=
  match save_data_try c maxB f fs with
  | .ok (a, m) => .normal a m
  | .error (a, m) => .normal (exceptCleanup f a) (m ++ [oops_message])

/-! ## Conversation Ledger (main.py 200-223) -/

/-- Progress line of main.py 218. -/
def progress_message (d : ConvData) : String :=
  "Saved progress: " ++ toString d.metadata.pair_count ++ " / " ++ toString d.metadata.total_target

/-- Warning of main.py 220. -/
def hiccup_message : String := "Had a hiccup saving the conversation"

/-- Confirmation of main.py 223. -/
def saved_another_way_message : String := "But don't worry, saved it another way!"

/-- Model of `save_conversation` (main.py 214-223): call
`backup_manager.save_data` inside a `try`; if that call raises, fall
back to a direct unguarded `json.dump` to the output file.  The third
component records whether the fallback branch ran. -/
def save_conversation (d : ConvData) (maxB : Nat) (f : Faults) (fs : FS) :
    FS × List String × Bool :=
  match save_data (serialize d) maxB f fs with
  | .normal fs1 m => (fs1, m ++ [progress_message d], false)
  | .raised fs1 m =>
    ({ fs1 with base := some ⟨serialize d, fs1.clock⟩, clock := fs1.clock + 1 },
     m ++ [hiccup_message, saved_another_way_message], true)

/-- The generator's state relevant to the Ledger: the in-memory
document, the filesystem, and the console log. -/
structure GenState where
  conversation_data : ConvData
  fs : FS
  log : List String
deriving Repr

/-- Model of `add_message_pair` (main.py 200-212): build the pair with the
current timestamp, append it, increment the counter, then call
`save_conversation` synchronously before returning. -/
def add_message_pair (maxB : Nat) (f : Faults) (gs : GenState)
    (user_text character_text : String) : GenState :=
  let d := appendPair gs.conversation_data user_text character_text gs.fs.clock
  let r := save_conversation d maxB f gs.fs
  { conversation_data := d, fs := r.1, log := gs.log ++ r.2.1 }

/-! ## Turn generation (main.py 242-326)

The remote text-completion call is modelled by its result: `.ok text`
for a returned completion, `.error e` for a raised exception. -/

/-- Model of `get_user_message` (main.py 242-302), reduced to its result
handling: a successful completion is normalized with `clean_response`;
an exception is replaced by one of the two hard-coded fallback
utterances (main.py 299-302). -/
def get_user_message (characterName userName userInterests : String)
    (is_first_message : Bool) (res : Except String String) : String :=
  match res with
  | .ok r => clean_response characterName r
  | .error _ =>
    if is_first_message then
      "Hi there! I'm " ++ userName ++ ". It's great to meet you. I'm really interested in "
        ++ userInterests ++ ". What about you?"
    else
      "Sorry, got distracted for a second! Anyway, what were you saying?"

/-- Model of `get_character_message` (main.py 304-326) applied to a successful
reply: `clean_response` of the candidate text.  All of its failure paths
raise, so a pair is appended only with a successful reply. -/
def get_character_message (characterName : String) (raw : String) : String :=
  clean_response characterName raw

/-- Documents reachable by a run when the appended texts are tracked
only as opaque strings: the document of `__init__` plus any sequence of
`add_message_pair` data mutations (the only mutation in main.py). -/
inductive ReachableData : ConvData → Prop where
  | boot (t : Nat) : ReachableData (initial_data t)
  | turn (d : ConvData) (u c : String) (ts : Nat) :
      ReachableData d → ReachableData (appendPair d u c ts)

/-- Documents reachable by a run when each appended pair is constrained
to come from the generation functions, as in `run_generation`
(main.py 336-369): the user text is a `get_user_message` result over an
arbitrary collaborator outcome, the character text is `clean_response`
of a successful reply. -/
inductive ReachableRun (cn nm ints : String) : ConvData → Prop where
  | boot (t : Nat) : ReachableRun cn nm ints (initial_data t)
  | turn (d : ConvData) (uRes : Except String String) (firstQ : Bool)
      (cRaw : String) (ts : Nat) :
      ReachableRun cn nm ints d →
      ReachableRun cn nm ints
        (appendPair d (get_user_message cn nm ints firstQ uRes)
          (get_character_message cn cRaw) ts)

/-! ## Process exit behaviour (main.py 120-138, 328-332, 392-415) -/

/-- The three startup situations that determine the exit status. -/
inductive ConfigState where
  /-- Situation with `config.json` absent: `__init__` writes a default file and calls
  `sys.exit(0)` (main.py 130-135). -/
  | missing
  /-- config present but without a `character` section: line 180
  (`self.config["character"]["name"]`) raises `KeyError`, which nothing
  catches — the interpreter exits non-zero.  The default config of
  main.py 96-118 has no `character` section either. -/
  | withoutCharacterSection
  /-- config present with the sections `__init__` touches. -/
  | full
deriving DecidableEq, Repr

/-- Exit status of the process as a function of the startup situation
and whether the Character AI session could be established.  With a full
config, `run_generation` handles every path by returning normally
(collaborator unreachable: print and `return`, main.py 330-332;
interrupt / errors: caught at main.py 371-390 and 406-409), so
`asyncio.run(main())` completes and the interpreter exits 0. -/
def main_exit_code (cfg : ConfigState) (charAIOk : Bool) : Nat :=
  match cfg with
  | .missing => 0
  | .withoutCharacterSection => 1
  | .full =>
    match charAIOk with
    | true => 0
    | false => 0

/-! ## Concrete instances used by counterexamples and witnesses -/

/-- Empty filesystem at run start. -/
def fs_empty : FS := ⟨none, none, [], 0⟩

/-- Only `json.dump` fails. -/
def dump_fault : Faults := ⟨true, false, false, false, false, false⟩

/-- Only `shutil.copy2` fails. -/
def only_copy_fault : Faults := ⟨false, true, false, false, false, false⟩

/-- A reachable document holding a pair whose user text is empty: the
text-completion collaborator successfully returned the empty string. -/
def c2_bad : ConvData :=
  appendPair (initial_data 50)
    (get_user_message "AI Character" "User" "chatting" true (.ok ""))
    (get_character_message "AI Character" "hi") 0

/-- Growing documents for the three-saves example. -/
def d7_1 : ConvData := appendPair (initial_data 3) "hi" "hey" 0
/-- Second state. -/
def d7_2 : ConvData := appendPair d7_1 "how" "fine" 1
/-- Third state. -/
def d7_3 : ConvData := appendPair d7_2 "cool" "yes" 2
/-- Fourth state. -/
def d7_4 : ConvData := appendPair d7_3 "more" "sure" 3

/-- Filesystem after save #1 with `max_backups = 2`. -/
def fs7_1 : FS := outFS (save_data (serialize d7_1) 2 noFaults fs_empty)
/-- After save #2. -/
def fs7_2 : FS := outFS (save_data (serialize d7_2) 2 noFaults fs7_1)
/-- After save #3. -/
def fs7_3 : FS := outFS (save_data (serialize d7_3) 2 noFaults fs7_2)
/-- After save #4. -/
def fs7_4 : FS := outFS (save_data (serialize d7_4) 2 noFaults fs7_3)

/-- A filesystem with a committed target and a populated backup
directory, for the pruning witness. -/
def fsW : FS :=
  ⟨some ⟨"x", 9⟩, none, [⟨"old1.bak", "p", 5⟩, ⟨"old2.bak", "q", 1⟩, ⟨"notes.txt", "r", 9⟩], 10⟩

/-- A filesystem whose target holds earlier content. -/
def fs_with_base : FS := ⟨some ⟨"old", 0⟩, none, [], 1⟩

/-! ## Helper lemmas -/

/-- Helper: `save_data` always returns normally: both branches of its
translation produce `.normal`, because the `except Exception` handler
(main.py 46) catches every failure of the protected suite. -/
theorem save_data_eq_normal (c : String) (maxB : Nat) (f : Faults) (fs : FS) :
    ∃ a m, save_data c maxB f fs = SaveOutcome.normal a m := by
  unfold save_data
  cases htry : save_data_try c maxB f fs with
  | ok p => obtain ⟨a, m⟩ := p; exact ⟨a, m, rfl⟩
  | error p => obtain ⟨a, m⟩ := p; exact ⟨_, _, rfl⟩

/-- Characterization of a fault-free `save_data` over an existing
target: the new content is committed with the current clock as its
mtime, the temporary file is gone, the backup directory holds the old
backups plus a copy of the old target, pruned. -/
theorem save_data_noFaults_some (c : String) (maxB : Nat) (fs : FS) (e : FileEntry)
    (hb : fs.base = some e) :
    save_data c maxB noFaults fs =
      SaveOutcome.normal
        { base := some ⟨c, fs.clock⟩, temp := none,
          backups := (fs.backups ++ [backupOf fs e]).filter (fun b => !isBakFile b)
            ++ prunedList maxB (fs.backups ++ [backupOf fs e]),
          clock := fs.clock + 2 } [] := by
  unfold save_data save_data_try create_backup cleanup_old_backups backupOf
  simp [hb, noFaults]

/-- Elements surviving the prune are `.bak` entries. -/
theorem mem_prunedList_isBak (maxB : Nat) (l : List BackupFile) (b : BackupFile)
    (h : b ∈ prunedList maxB l) : isBakFile b = true := by
  have h1 : b ∈ sortedBaks l := List.mem_of_mem_drop h
  have h2 : b ∈ l.filter isBakFile :=
    (List.Perm.mem_iff (List.perm_insertionSort bkLE (l.filter isBakFile))).mp h1
  exact List.of_mem_filter h2

/-- What the `.bak` filter sees after a cleanup: exactly the pruned
sorted list. -/
theorem filter_cleanup_result (maxB : Nat) (l : List BackupFile) :
    (l.filter (fun b => !isBakFile b) ++ prunedList maxB l).filter isBakFile
      = prunedList maxB l := by
  rw [List.filter_append]
  have h1 : (l.filter (fun b => !isBakFile b)).filter isBakFile = [] := by
    simp [List.filter_filter]
  have h2 : (prunedList maxB l).filter isBakFile = prunedList maxB l :=
    List.filter_eq_self.mpr (fun b hb => mem_prunedList_isBak maxB l b hb)
  rw [h1, h2, List.nil_append]

/-- The first fallback utterance is never the empty string. -/
theorem first_fallback_ne_empty (nm ints : String) :
    "Hi there! I'm " ++ nm ++ ". It's great to meet you. I'm really interested in "
        ++ ints ++ ". What about you?" ≠ "" := by
  intro h
  have h2 := congrArg String.length h
  simp only [String.length_append] at h2
  have h3 : String.length "Hi there! I'm " = 14 := rfl
  have h4 : String.length "" = 0 := rfl
  omega

/-! ## Claim theorems -/

/-- Claim C10 (confirmed): for every input document and filesystem
state — including every combination of injected failures — the Durable
Store's `save_data` returns normally rather than raising: the catch-all
`except` of main.py 46-52 absorbs every failure of the protected suite
(and the handler's own `os.remove` is wrapped in a bare `except:
pass`), so the caller receives no exception and no success signal. -/
theorem save_data_never_raises (c : String) (maxB : Nat) (f : Faults) (fs : FS) :
    (save_data c maxB f fs).isNormal = true := by
  obtain ⟨a, m, h⟩ := save_data_eq_normal c maxB f fs
  rw [h]; rfl

/-- Claim C1, counterexample: with a failing `json.dump` on a fresh
run, `save_data` fails but catches the failure itself (printing the
warning), `save_conversation`'s fallback branch does not run, and the
output file does not exist afterwards — the persistence failure left
the document unwritten with no fallback write. -/
theorem save_failure_leaves_doc_unwritten :
    oops_message ∈ (save_conversation (initial_data 50) 5 dump_fault fs_empty).2.1
    ∧ (save_conversation (initial_data 50) 5 dump_fault fs_empty).2.2 = false
    ∧ (save_conversation (initial_data 50) 5 dump_fault fs_empty).1.base = none := by
  decide

/-- Claim C1, amended: the Ledger's `save_conversation` does wrap the
`save_data` call in a `try` with a direct-write fallback (main.py
219-223), but `save_data` catches all of its own failures and returns
normally, so the fallback branch is never triggered by a persistence
failure; a failed save surfaces only the Durable Store's own warning
and can leave the document unwritten until the next save. -/
theorem ledger_fallback_never_triggered (d : ConvData) (maxB : Nat) (f : Faults) (fs : FS) :
    (save_conversation d maxB f fs).2.2 = false := by
  obtain ⟨a, m, h⟩ := save_data_eq_normal (serialize d) maxB f fs
  simp [save_conversation, h]

/-- Claim C2, counterexample: a reachable run state whose first pair
has an empty `user` text.  The text-completion collaborator succeeded
with the empty string; `clean_response` keeps it empty and
`add_message_pair` appends it as-is — no fallback substitution happens
for empty (as opposed to failed) generations. -/
theorem reachable_state_with_empty_user_text :
    ReachableRun "AI Character" "User" "chatting" c2_bad
    ∧ c2_bad.conversation_pairs = [⟨"", "hi", 0⟩] :=
  ⟨by
    unfold c2_bad
    exact ReachableRun.turn _ (Except.ok "") true "hi" 0 (ReachableRun.boot 50),
   by decide⟩

/-- Claim C2, amended: no half-formed pair is ever appended — both
fields of a pair are set together by the single append operation — and
a *failed* generation is replaced by a fixed non-empty fallback
utterance; but a *successful* generation whose normalized text is empty
is stored as the empty string, so entries need not have non-empty
texts. -/
theorem fallback_nonempty_and_whole_pairs :
    (∀ (cn nm ints e : String) (firstQ : Bool),
        get_user_message cn nm ints firstQ (Except.error e) ≠ "")
    ∧ ∀ (d : ConvData) (u c : String) (ts : Nat),
        (appendPair d u c ts).conversation_pairs = d.conversation_pairs ++ [⟨u, c, ts⟩] := by
  constructor
  · intro cn nm ints e firstQ
    cases firstQ with
    | true => exact first_fallback_ne_empty nm ints
    | false =>
      have hv : get_user_message cn nm ints false (Except.error e)
          = "Sorry, got distracted for a second! Anyway, what were you saying?" := rfl
      rw [hv]
      decide
  · intro d u c ts
    rfl

/-- Claim C3 (confirmed): a fault-free save over an existing target
(the saves that perform a backup copy) leaves the backup directory with
at most `max_backups` entries ending in `.bak`; the survivors are
exactly the tail of the mtime-ascending sorted `.bak` listing, the
deleted entries are its head, and every deleted entry is at least as
old as every survivor. -/
theorem backup_pruning_bound_and_oldest_first (c : String) (maxB : Nat) (fs : FS)
    (e : FileEntry) (hb : fs.base = some e) :
    ((outFS (save_data c maxB noFaults fs)).backups.filter isBakFile
        = prunedList maxB (fs.backups ++ [backupOf fs e]))
    ∧ ((outFS (save_data c maxB noFaults fs)).backups.filter isBakFile).length ≤ maxB
    ∧ (deletedList maxB (fs.backups ++ [backupOf fs e])
        ++ prunedList maxB (fs.backups ++ [backupOf fs e])
        = sortedBaks (fs.backups ++ [backupOf fs e]))
    ∧ ∀ b1 ∈ deletedList maxB (fs.backups ++ [backupOf fs e]),
      ∀ b2 ∈ prunedList maxB (fs.backups ++ [backupOf fs e]), b1.mtime ≤ b2.mtime := by
  rw [save_data_noFaults_some c maxB fs e hb]
  simp only [outFS]
  have hfil := filter_cleanup_result maxB (fs.backups ++ [backupOf fs e])
  refine ⟨hfil, ?_, List.take_append_drop _ _, ?_⟩
  · rw [hfil]
    unfold prunedList
    rw [List.length_drop]
    omega
  · have hsorted : List.Sorted bkLE (sortedBaks (fs.backups ++ [backupOf fs e])) :=
      List.sorted_insertionSort bkLE _
    rw [← List.take_append_drop
      ((sortedBaks (fs.backups ++ [backupOf fs e])).length - maxB)
      (sortedBaks (fs.backups ++ [backupOf fs e]))] at hsorted
    exact fun b1 h1 b2 h2 => (List.pairwise_append.mp hsorted).2.2 b1 h1 b2 h2

/-- Witness for claim C3 at a concrete filesystem: target `"x"` with
mtime 9, two old backups (mtimes 5 and 1) and one non-`.bak` file,
`max_backups = 2`. -/
theorem backup_pruning_witness :
    fsW.base = some ⟨"x", 9⟩
    ∧ (((outFS (save_data "new" 2 noFaults fsW)).backups.filter isBakFile
          = prunedList 2 (fsW.backups ++ [backupOf fsW ⟨"x", 9⟩]))
        ∧ ((outFS (save_data "new" 2 noFaults fsW)).backups.filter isBakFile).length ≤ 2
        ∧ (deletedList 2 (fsW.backups ++ [backupOf fsW ⟨"x", 9⟩])
            ++ prunedList 2 (fsW.backups ++ [backupOf fsW ⟨"x", 9⟩])
            = sortedBaks (fsW.backups ++ [backupOf fsW ⟨"x", 9⟩]))
        ∧ ∀ b1 ∈ deletedList 2 (fsW.backups ++ [backupOf fsW ⟨"x", 9⟩]),
          ∀ b2 ∈ prunedList 2 (fsW.backups ++ [backupOf fsW ⟨"x", 9⟩]), b1.mtime ≤ b2.mtime) :=
  ⟨rfl, backup_pruning_bound_and_oldest_first "new" 2 fsW ⟨"x", 9⟩ rfl⟩

/-- Claim C4, counterexample: a failure during backup creation
(`shutil.copy2` raises) is caught inside `_create_backup` (main.py
65-70), so `save_data` proceeds: the warning is printed, yet the
previously-committed target is replaced with the new document rather
than left untouched. -/
theorem backup_failure_still_replaces_target :
    backup_warn_message ∈ outMsgs (save_data "new" 5 only_copy_fault fs_with_base)
    ∧ (outFS (save_data "new" 5 only_copy_fault fs_with_base)).base ≠ fs_with_base.base
    ∧ (outFS (save_data "new" 5 only_copy_fault fs_with_base)).base = some ⟨"new", 1⟩ := by
  decide

/-- Claim C4, amended: a failure during serialization (`json.dump`)
makes `save_data` remove the temporary file, report the failure, and
leave both the target and the backup directory untouched; a failure
during backup creation, by contrast, is caught inside the backup step
(best effort), is reported, and does not block the primary write — the
target is still replaced with the new document. -/
theorem save_failure_semantics_amended (c : String) (maxB : Nat) (fs : FS) :
    ((outFS (save_data c maxB dump_fault fs)).base = fs.base
      ∧ (outFS (save_data c maxB dump_fault fs)).temp = none
      ∧ (outFS (save_data c maxB dump_fault fs)).backups = fs.backups
      ∧ oops_message ∈ outMsgs (save_data c maxB dump_fault fs))
    ∧ (fs.base.isSome = true →
        (outFS (save_data c maxB only_copy_fault fs)).base = some ⟨c, fs.clock⟩
          ∧ backup_warn_message ∈ outMsgs (save_data c maxB only_copy_fault fs)) := by
  constructor
  · simp [save_data, save_data_try, exceptCleanup, dump_fault, outFS, outMsgs]
  · intro hs
    obtain ⟨e, he⟩ := Option.isSome_iff_exists.mp hs
    simp [save_data, save_data_try, create_backup, only_copy_fault, he, outFS, outMsgs]

/-- Witness for claim C4 at `fs_with_base` (committed target `"old"`,
clock 1). -/
theorem save_failure_semantics_witness :
    ((outFS (save_data "new" 5 dump_fault fs_with_base)).base = fs_with_base.base
      ∧ (outFS (save_data "new" 5 dump_fault fs_with_base)).temp = none
      ∧ (outFS (save_data "new" 5 dump_fault fs_with_base)).backups = fs_with_base.backups
      ∧ oops_message ∈ outMsgs (save_data "new" 5 dump_fault fs_with_base))
    ∧ fs_with_base.base.isSome = true
    ∧ ((outFS (save_data "new" 5 only_copy_fault fs_with_base)).base
          = some ⟨"new", fs_with_base.clock⟩
        ∧ backup_warn_message ∈ outMsgs (save_data "new" 5 only_copy_fault fs_with_base)) :=
  ⟨(save_failure_semantics_amended "new" 5 fs_with_base).1, rfl,
   (save_failure_semantics_amended "new" 5 fs_with_base).2 rfl⟩

/-- Claim C5 (confirmed): `add_message_pair` appends exactly one pair —
carrying both texts and the current timestamp — at the end of
`conversation_pairs`, preserving all existing pairs and their order;
`pair_count` grows by exactly 1; and a synchronous `save_conversation`
of the updated document happens before the operation returns (its
filesystem effect and console output are exactly those of the save of
the appended document). -/
theorem add_message_pair_appends_and_saves (maxB : Nat) (f : Faults) (gs : GenState)
    (u c : String) :
    (add_message_pair maxB f gs u c).conversation_data.conversation_pairs
        = gs.conversation_data.conversation_pairs ++ [⟨u, c, gs.fs.clock⟩]
    ∧ (add_message_pair maxB f gs u c).conversation_data.metadata.pair_count
        = gs.conversation_data.metadata.pair_count + 1
    ∧ (add_message_pair maxB f gs u c).fs
        = (save_conversation (add_message_pair maxB f gs u c).conversation_data maxB f gs.fs).1
    ∧ (add_message_pair maxB f gs u c).log
        = gs.log
          ++ (save_conversation (add_message_pair maxB f gs u c).conversation_data maxB f gs.fs).2.1 :=
  ⟨rfl, rfl, rfl, rfl⟩

/-- Claim C6, counterexample: when the character-side collaborator is
unreachable at startup, `run_generation` prints an error and returns
normally (main.py 330-332), `asyncio.run(main())` completes, and the
process exits with status 0 — not non-zero as claimed. -/
theorem init_failure_exits_zero : main_exit_code ConfigState.full false = 0 := rfl

/-- Claim C6, amended: the exit status is 0 on normal completion,
graceful shutdown, the missing-config bootstrap, and also when the
character-side collaborator is unreachable at startup (the run aborts
gracefully); a non-zero status arises only from an unhandled startup
exception, such as a config file lacking the `character` section that
`__init__` dereferences at main.py 180. -/
theorem exit_code_amended (cfg : ConfigState) (charAIOk : Bool) :
    main_exit_code cfg charAIOk = 0 ↔ cfg ≠ ConfigState.withoutCharacterSection := by
  cases cfg <;> cases charAIOk <;> simp [main_exit_code]

/-- Claim C7, counterexample: with `max_backups = 2`, three successive
fault-free saves of a growing document leave the backup directory
holding the document states written by saves #1 and #2 — not the
states #2 and #3: the backup taken during a save copies the committed
state, and with only two backups present nothing has been evicted
yet. -/
theorem three_saves_backup_contents_counterexample :
    fs7_3.backups.map (fun b => b.content) = [serialize d7_1, serialize d7_2]
    ∧ serialize d7_1 ≠ serialize d7_2
    ∧ serialize d7_1 ≠ serialize d7_3 := by
  decide

/-- Claim C7, amended: with `max_backups = 2`, three successive saves
of a growing document leave exactly 2 backup files whose contents are
the document states written by saves #1 and #2; save #1's backup is
evicted only at the fourth save, after which the backups hold the
states from saves #2 and #3. -/
theorem three_saves_backup_contents_amended :
    fs7_3.backups.length = 2
    ∧ fs7_3.backups.map (fun b => b.content) = [serialize d7_1, serialize d7_2]
    ∧ fs7_4.backups.map (fun b => b.content) = [serialize d7_2, serialize d7_3] := by
  decide

/-- Claim C8, counterexample: the user-side labels are the hard-coded
literals of main.py 229, not the persona's own name: with persona name
"Alice", the utterance "Alice: hello" is stored unchanged — the
speaker-label is not stripped, contradicting the claimed
"speaker's own name" normalization. -/
theorem persona_name_label_not_stripped :
    clean_response "AI Character" "Alice: hello" = "Alice: hello"
    ∧ clean_response "AI Character" "Alice: hello" ≠ "hello" := by
  decide

/-- Claim C8, amended: the normalization strips leading/trailing
whitespace, a fixed literal set of "user"-labelled variants
(independent of the persona's configured name), and label variants
built from the configured *character* name; in particular, with
persona name "User" the example holds: " User: hello " is stored as
"hello". -/
theorem clean_response_normalization_examples :
    clean_response "AI Character" " User: hello " = "hello"
    ∧ clean_response "AI Character" "*user: hi" = "hi"
    ∧ clean_response "AI Character" "ai character: hey" = "hey" := by
  decide

/-- Claim C9 (confirmed): in every reachable document state,
`metadata.pair_count` equals the length of `conversation_pairs`: both
start at 0/empty in `__init__`, and the only mutation appends one pair
and increments the counter together. -/
theorem pair_count_matches_length (d : ConvData) (h : ReachableData d) :
    d.metadata.pair_count = d.conversation_pairs.length := by
  induction h with
  | boot t => rfl
  | turn d u c ts _ ih => simp [appendPair, ih]

/-- Witness for claim C9: the invariant at the concrete state reached
after one append. -/
theorem pair_count_matches_length_witness :
    (appendPair (initial_data 5) "a" "b" 0).metadata.pair_count
      = (appendPair (initial_data 5) "a" "b" 0).conversation_pairs.length :=
  pair_count_matches_length _ (ReachableData.turn _ "a" "b" 0 (ReachableData.boot 5))
